import Mathlib

/-!
# Verification of `repeatable_timer.hpp` (d-o/repeating_timer)

A shallow embedding of the single-header C++ class `RepeatingTimer<Context>`.

Modelling conventions:

* Time is a `Nat` number of milliseconds on the monotonic clock.  The asio
  `steady_timer`'s absolute expiry (`timer_.expiry()`) is the field `expiry`;
  `timer_.expires_after(duration(0))` becomes setting `expiry` to the current
  time `now` which is passed as an explicit argument where the source reads
  the clock; `timer_.expires_at(e)` sets the field directly.
* Callbacks `std::function<void(Context&)>` mutate the context, so they are
  modelled as `Ctx → Ctx`; a `nullptr` `std::function` is `none`.
* `std::shared_ptr<Context> context_` is `Option Ctx`; dereferencing a null
  `shared_ptr` (`*context_` when `context_ == nullptr`) is undefined
  behaviour in C++ and is modelled as the explicit event `derefNullContext`
  with the callback not receiving a context.
* Every operation returns, besides the successor state, a trace of `Event`s
  recording side effects in source order: mutex acquisition/release
  (`std::lock_guard` construction/destruction), callback invocation,
  `timer_.cancel()`, `timer_.async_wait(...)` registration (with the armed
  absolute deadline) and `std::cerr` diagnostics.  Crucially, a
  `std::lock_guard` declared as the entire body of an `if` statement
  (`if (cond) std::lock_guard<std::mutex> lock(mtx);`) is destroyed at the
  end of that statement, so its acquire/release pair closes *before* the
  following statements run; the embedding reproduces exactly that scoping.
* The completion handler's `asio::error_code` is the inductive `Outcome`
  (`success` for `!ec`, `aborted` for `asio::error::operation_aborted`,
  `error m` for any other code, `m` standing for the numeric code).
  `wptr.lock()` succeeding is the Boolean argument `alive`.
-/

/-- Outcome passed by the runtime to the `async_wait` completion handler:
`success` (`!ec`), `aborted` (`asio::error::operation_aborted`), or any
other error code `m`. -/
inductive Outcome where
  | success : Outcome
  | aborted : Outcome
  | error : Nat → Outcome
deriving DecidableEq, Repr

/-- Observable side effects of the timer's operations, in program order. -/
inductive Event where
  /-- `std::lock_guard<std::mutex> lock(mtx_)` constructed. -/
  | lockAcquire : Event
  /-- the `lock_guard` destroyed (end of its scope). -/
  | lockRelease : Event
  /-- `callfirst_(*context_)` ran with a live context. -/
  | invokeFirst : Event
  /-- `callback_(*context_)` ran with a live context. -/
  | invokeTick : Event
  /-- `calllast_(*context_)` ran with a live context. -/
  | invokeLast : Event
  /-- `*context_` evaluated while `context_` is null: invalid access. -/
  | derefNullContext : Event
  /-- `timer_.cancel()`. -/
  | cancelWakeup : Event
  /-- `timer_.async_wait(...)` registered, armed for the given deadline. -/
  | registerWakeup : Nat → Event
  /-- `std::cerr << "RepeatingTimer error: " << ec.message()`. -/
  | logError : Nat → Event
deriving DecidableEq, Repr

/-- The state of one `RepeatingTimer<Context>` instance: the asio timer's
absolute expiry plus the fields `period_`, `running_`, `context_`,
`callback_`, `callfirst_`, `calllast_` of the class. -/
structure RepeatingTimer (Ctx : Type) where
  /-- `timer_.expiry()`: absolute deadline of the asio `steady_timer`. -/
  expiry : Nat
  /-- `std::chrono::milliseconds period_`. -/
  period_ : Nat
  /-- `std::atomic<bool> running_`. -/
  running_ : Bool
  /-- `std::shared_ptr<Context> context_` (`none` = nullptr). -/
  context_ : Option Ctx
  /-- `Callback callback_` (the periodic callback). -/
  callback_ : Option (Ctx → Ctx)
  /-- `Callback callfirst_` (the optional start-once callback). -/
  callfirst_ : Option (Ctx → Ctx)
  /-- `Callback calllast_` (the optional stop-once callback). -/
  calllast_ : Option (Ctx → Ctx)

namespace RepeatingTimer

variable {Ctx : Type}

/-- Evaluating `f(*context_)`: with a live context the callback runs on it
(event `ev`) and the mutated context is stored back; with a null context the
dereference is an invalid access (`derefNullContext`) and no context value
exists for the callback to update. -/
def invokeOn (f : Ctx → Ctx) (ctx : Option Ctx) (ev : Event) :
    Option Ctx × List Event :=
  match ctx with
  | some c => (some (f c), [ev])
  | none => (none, [Event.derefNullContext])

/-- `schedule_next(std::chrono::milliseconds this_period)` (lines 111–157):
return at once if cancelled; otherwise, if `callfirst_` is set keep the
expiry unchanged (`timer_.expires_at(timer_.expiry())`), else advance it by
`this_period` (`timer_.expires_at(timer_.expiry() + this_period)`); then
register the completion handler via `timer_.async_wait`. -/
def schedule_next (s : RepeatingTimer Ctx) (this_period : Nat) :
    RepeatingTimer Ctx × List Event :=
  if s.running_ = false then (s, [])
  else
    let s' :=
      if s.callfirst_.isSome then { s with expiry := s.expiry }
      else { s with expiry := s.expiry + this_period }
    (s', [Event.registerWakeup s'.expiry])

/-- The completion handler the lambda in `schedule_next` installs
(lines 129–156): bail out on `operation_aborted`; log and bail out on any
other error; if the weak pointer still locks (`alive`), take (and at once
drop — the `lock_guard` is the whole body of the `if` statement) the shared
mutex when a context exists, run `callfirst_` (then discard it) or else
`callback_`, and rearm through the parameterless `schedule_next()` —
i.e. with `period_` — if still `running_`. -/
def on_expiry (alive : Bool) (ec : Outcome) (s : RepeatingTimer Ctx) :
    RepeatingTimer Ctx × List Event :=
  match ec with
  | Outcome.aborted => (s, [])
  | Outcome.error m => (s, [Event.logError m])
  | Outcome.success =>
    if alive = false then (s, [])
    else
      let lockEvs :=
        if s.context_.isSome then [Event.lockAcquire, Event.lockRelease]
        else []
      match s.callfirst_ with
      | some f =>
        let (ctx', evs) := invokeOn f s.context_ Event.invokeFirst
        let s1 := { s with context_ := ctx', callfirst_ := none }
        let (s2, evs2) :=
          if s1.running_ then schedule_next s1 s1.period_ else (s1, [])
        (s2, lockEvs ++ evs ++ evs2)
      | none =>
        match s.callback_ with
        | some g =>
          let (ctx', evs) := invokeOn g s.context_ Event.invokeTick
          let s1 := { s with context_ := ctx' }
          let (s2, evs2) :=
            if s1.running_ then schedule_next s1 s1.period_ else (s1, [])
          (s2, lockEvs ++ evs ++ evs2)
        | none =>
          let (s2, evs2) :=
            if s.running_ then schedule_next s s.period_ else (s, [])
          (s2, lockEvs ++ evs2)

/-- `create(io, cb, period, ctx, cb_once, cb_last)` (lines 33–52): the
private constructor initialises `period_`, `running_ = true` and `context_`;
`create` stores the three callbacks, sets the expiry to now
(`expires_after(duration(0))`, `now` being the creation instant) and calls
the parameterless `schedule_next()`. -/
def create (now : Nat) (cb : Option (Ctx → Ctx)) (period : Nat)
    (ctx : Option Ctx) (cb_once : Option (Ctx → Ctx))
    (cb_last : Option (Ctx → Ctx)) : RepeatingTimer Ctx × List Event :=
  let timer : RepeatingTimer Ctx :=
    { expiry := now
      period_ := period
      running_ := true
      context_ := ctx
      callback_ := cb
      callfirst_ := cb_once
      calllast_ := cb_last }
  schedule_next timer timer.period_

/-- `cancel()` (lines 74–84): set `running_ = false`, `timer_.cancel()`, and
if `calllast_` exists take (and at once drop — same single-statement
`lock_guard`) the mutex when a context exists, run `calllast_(*context_)`,
and null it out.  The destructor (line 86) performs exactly `cancel()`. -/
def cancel (s : RepeatingTimer Ctx) : RepeatingTimer Ctx × List Event :=
  let s1 := { s with running_ := false }
  match s1.calllast_ with
  | some f =>
    let lockEvs :=
      if s1.context_.isSome then [Event.lockAcquire, Event.lockRelease]
      else []
    let (ctx', evs) := invokeOn f s1.context_ Event.invokeLast
    ({ s1 with context_ := ctx', calllast_ := none },
      Event.cancelWakeup :: (lockEvs ++ evs))
  | none => (s1, [Event.cancelWakeup])

/-- `reschedule(newPeriod, saveNew)` (lines 55–66): under a `lock_guard` on
the shared mutex held for the whole body, `timer_.cancel()`, store
`newPeriod` into `period_` when `saveNew`, reset the expiry to now
(`expires_after(duration(0))`) and call `schedule_next(newPeriod)`. -/
def reschedule (s : RepeatingTimer Ctx) (newPeriod : Nat) (saveNew : Bool)
    (now : Nat) : RepeatingTimer Ctx × List Event :=
  let s1 := if saveNew then { s with period_ := newPeriod } else s
  let s2 := { s1 with expiry := now }
  let (s3, evs) := schedule_next s2 newPeriod
  (s3, Event.lockAcquire :: Event.cancelWakeup :: (evs ++ [Event.lockRelease]))

/-- The parameterless `reschedule()` (lines 69–71): `reschedule(period_)`. -/
def reschedule_same (s : RepeatingTimer Ctx) (now : Nat) :
    RepeatingTimer Ctx × List Event :=
  reschedule s s.period_ false now

/-- One successful expiry of the armed wakeup with the object still
referenced: the ordinary tick. -/
def tick (s : RepeatingTimer Ctx) : RepeatingTimer Ctx :=
  (on_expiry true Outcome.success s).1

/-- `n` consecutive successful expiries, with the accumulated event trace. -/
def run_ticks : RepeatingTimer Ctx → Nat → RepeatingTimer Ctx × List Event
  | s, 0 => (s, [])
  | s, n + 1 =>
    let (s1, evs1) := on_expiry true Outcome.success s
    let (s2, evs2) := run_ticks s1 n
    (s2, evs1 ++ evs2)

/-- `n` consecutive `cancel()` calls (the destructor being one more such
call), with the accumulated event trace. -/
def run_cancels : RepeatingTimer Ctx → Nat → RepeatingTimer Ctx × List Event
  | s, 0 => (s, [])
  | s, n + 1 =>
    let (s1, evs1) := cancel s
    let (s2, evs2) := run_cancels s1 n
    (s2, evs1 ++ evs2)

/-- Recognise the start-once invocation event. -/
def isFirstEv : Event → Bool
  | Event.invokeFirst => true
  | _ => false

/-- Recognise the periodic invocation event. -/
def isTickEv : Event → Bool
  | Event.invokeTick => true
  | _ => false

/-- Recognise the stop-once invocation event. -/
def isLastEv : Event → Bool
  | Event.invokeLast => true
  | _ => false

/-- Recognise any callback invocation event. -/
def isInvokeEv : Event → Bool
  | Event.invokeFirst => true
  | Event.invokeTick => true
  | Event.invokeLast => true
  | _ => false

/-- Recognise the registration of a new wakeup. -/
def isRegisterEv : Event → Bool
  | Event.registerWakeup _ => true
  | _ => false

/-- Whether, in a trace, every callback invocation happens while the mutex
is held: scan the trace keeping the current lock depth and demand a positive
depth at each invocation event. -/
def invokesGuardedFrom : Nat → List Event → Bool
  | _, [] => true
  | d, Event.lockAcquire :: rest => invokesGuardedFrom (d + 1) rest
  | d, Event.lockRelease :: rest => invokesGuardedFrom (d - 1) rest
  | d, e :: rest =>
      (!isInvokeEv e || decide (0 < d)) && invokesGuardedFrom d rest

/-- A trace in which every callback invocation is protected by the mutex. -/
def invokesGuarded (l : List Event) : Bool :=
  invokesGuardedFrom 0 l

/-! ## Helper lemmas about single steps -/

/-- Unfolding one step of `run_ticks`: the state threads through `tick`. -/
lemma run_ticks_succ_fst (s : RepeatingTimer Ctx) (n : Nat) :
    (run_ticks s (n + 1)).1 = (run_ticks (tick s) n).1 :=
  rfl

/-- Unfolding one step of `run_ticks`: the traces concatenate. -/
lemma run_ticks_succ_snd (s : RepeatingTimer Ctx) (n : Nat) :
    (run_ticks s (n + 1)).2 =
      (on_expiry true Outcome.success s).2 ++ (run_ticks (tick s) n).2 :=
  rfl

/-- Unfolding one step of `run_cancels`: the state threads through
`cancel`. -/
lemma run_cancels_succ_fst (s : RepeatingTimer Ctx) (n : Nat) :
    (run_cancels s (n + 1)).1 = (run_cancels (cancel s).1 n).1 :=
  rfl

/-- Unfolding one step of `run_cancels`: the traces concatenate. -/
lemma run_cancels_succ_snd (s : RepeatingTimer Ctx) (n : Nat) :
    (run_cancels s (n + 1)).2 =
      (cancel s).2 ++ (run_cancels (cancel s).1 n).2 :=
  rfl

/-- A successful tick of a running timer whose start-once callback is gone
advances the expiry by exactly `period_` and leaves every field but the
context unchanged. -/
lemma tick_no_first (e per : Nat) (ctx : Option Ctx)
    (cb cl : Option (Ctx → Ctx)) :
    ∃ ctx', tick (⟨e, per, true, ctx, cb, none, cl⟩ : RepeatingTimer Ctx)
      = ⟨e + per, per, true, ctx', cb, none, cl⟩ := by
  cases cb <;> cases ctx <;> exact ⟨_, rfl⟩

/-- Expiry advance of a successful tick with no pending start-once
callback. -/
lemma tick_expiry_of_no_first (e per : Nat) (ctx : Option Ctx)
    (cb cl : Option (Ctx → Ctx)) :
    (tick (⟨e, per, true, ctx, cb, none, cl⟩ : RepeatingTimer Ctx)).expiry
      = e + per := by
  obtain ⟨ctx', h⟩ := tick_no_first e per ctx cb cl
  rw [h]

/-- A successful tick of a running timer with a pending start-once callback
consumes the callback and still advances the expiry by `period_` at rearm
time, because `callfirst_` is nulled before `schedule_next()` runs. -/
lemma tick_with_first (e per : Nat) (ctx : Option Ctx) (f : Ctx → Ctx)
    (cb cl : Option (Ctx → Ctx)) :
    ∃ ctx', tick (⟨e, per, true, ctx, cb, some f, cl⟩ : RepeatingTimer Ctx)
      = ⟨e + per, per, true, ctx', cb, none, cl⟩ := by
  cases ctx <;> exact ⟨_, rfl⟩

/-- After any number of successful ticks from a running state with no
start-once callback pending, the expiry sits exactly `n` periods past the
starting deadline: the iterated form of drift-free rearming. -/
lemma run_ticks_expiry_no_first (per : Nat) (cb cl : Option (Ctx → Ctx)) :
    ∀ (n e : Nat) (ctx : Option Ctx),
    ((run_ticks (⟨e, per, true, ctx, cb, none, cl⟩ : RepeatingTimer Ctx)
      n).1).expiry = e + n * per := by
  intro n
  induction n with
  | zero => intro e ctx; simp [run_ticks]
  | succ n ih =>
    intro e ctx
    obtain ⟨ctx', h⟩ := tick_no_first e per ctx cb cl
    rw [run_ticks_succ_fst, h, ih (e + per) ctx']
    ring

/-! ## C1 -/

/-- C1 (counterexample): a timer created at time 0 with a periodic callback,
period 10 and no start-once callback arms its first wakeup for deadline 10,
one full period after creation — not for "now" (0) as the claim states. -/
theorem first_tick_without_start_cb_not_armed_for_now :
    ((create 0 (some (fun c => c + 1)) 10 (some 0) none none :
        RepeatingTimer Nat × List Event).2 = [Event.registerWakeup 10])
    ∧ (create 0 (some (fun c => c + 1)) 10 (some 0) none none :
        RepeatingTimer Nat × List Event).1.expiry ≠ 0 :=
  ⟨rfl, by decide⟩

/-- C1 (amended): with no start-once callback the first wakeup is armed for
`now + period`, so the first periodic invocation comes one full period after
creation; the zero-delay first arming happens only when a start-once
callback is supplied, in which case the first wakeup is armed for `now`
itself. -/
theorem create_first_deadline (now per : Nat) (cb cl : Option (Ctx → Ctx))
    (ctx : Option Ctx) (f : Ctx → Ctx) :
    (create now cb per ctx none cl).1.expiry = now + per
    ∧ (create now cb per ctx none cl).2
        = [Event.registerWakeup (now + per)]
    ∧ (create now cb per ctx (some f) cl).1.expiry = now
    ∧ (create now cb per ctx (some f) cl).2 = [Event.registerWakeup now] :=
  ⟨rfl, rfl, rfl, rfl⟩

/-! ## C2 -/

/-- C2: rearming never consults the current time — `schedule_next` advances
the stored absolute expiry by the period (`previous_deadline + period`),
except that while the start-once callback is still pending it rearms at the
unchanged current deadline; consequently, for a timer created at `now` with
a start-once callback, after `n` successful expiries the armed deadline is
exactly `now + n * period` (the anchor plus `n` periods, the start callback
having fired at the anchor itself on tick 1). -/
theorem deadline_advances_from_previous_deadline (e p per now : Nat)
    (ctx : Option Ctx) (cb cl : Option (Ctx → Ctx)) (f : Ctx → Ctx)
    (n : Nat) :
    (schedule_next (⟨e, per, true, ctx, cb, none, cl⟩ :
        RepeatingTimer Ctx) p).1.expiry = e + p
    ∧ (schedule_next (⟨e, per, true, ctx, cb, some f, cl⟩ :
        RepeatingTimer Ctx) p).1.expiry = e
    ∧ ((run_ticks (create now cb per ctx (some f) cl).1 n).1).expiry
        = now + n * per := by
  refine ⟨rfl, rfl, ?_⟩
  have hcreate : (create now cb per ctx (some f) cl).1
      = ⟨now, per, true, ctx, cb, some f, cl⟩ := rfl
  rw [hcreate]
  cases n with
  | zero => simp [run_ticks]
  | succ n =>
    obtain ⟨ctx', h⟩ := tick_with_first now per ctx f cb cl
    rw [run_ticks_succ_fst, h, run_ticks_expiry_no_first per cb cl n
      (now + per) ctx']
    ring

/-! ## C3 -/

/-- From a running state with no start-once callback left, a periodic
callback and a live context, every successful tick produces exactly one
periodic invocation and no start-once invocation. -/
lemma run_ticks_counts_no_first (per : Nat) (g : Ctx → Ctx)
    (cl : Option (Ctx → Ctx)) :
    ∀ (n e : Nat) (c : Ctx),
    ((run_ticks (⟨e, per, true, some c, some g, none, cl⟩ :
        RepeatingTimer Ctx) n).2.countP isFirstEv) = 0
    ∧ ((run_ticks (⟨e, per, true, some c, some g, none, cl⟩ :
        RepeatingTimer Ctx) n).2.countP isTickEv) = n := by
  intro n
  induction n with
  | zero => intro e c; exact ⟨rfl, rfl⟩
  | succ n ih =>
    intro e c
    have htick : tick (⟨e, per, true, some c, some g, none, cl⟩ :
        RepeatingTimer Ctx) = ⟨e + per, per, true, some (g c), some g,
          none, cl⟩ := rfl
    have htr : (on_expiry true Outcome.success
        (⟨e, per, true, some c, some g, none, cl⟩ :
          RepeatingTimer Ctx)).2
        = [Event.lockAcquire, Event.lockRelease, Event.invokeTick,
            Event.registerWakeup (e + per)] := rfl
    have hf : List.countP isFirstEv [Event.lockAcquire, Event.lockRelease,
        Event.invokeTick, Event.registerWakeup (e + per)] = 0 := rfl
    have ht : List.countP isTickEv [Event.lockAcquire, Event.lockRelease,
        Event.invokeTick, Event.registerWakeup (e + per)] = 1 := rfl
    obtain ⟨ih1, ih2⟩ := ih (e + per) (g c)
    constructor
    · rw [run_ticks_succ_snd, htick, htr, List.countP_append, hf, ih1]
    · rw [run_ticks_succ_snd, htick, htr, List.countP_append, ht, ih2]
      omega

/-- C3: for a timer created with a start-once callback, a periodic callback
and a context, the first successful expiry invokes the start-once callback
(and not the periodic one) and discards it, and across any `n` successful
expiries the start-once callback runs `min n 1` times — exactly once as soon
as a tick happens — while the periodic callback runs on each of the other
`n - 1` ticks. -/
theorem start_once_fires_exactly_once_then_periodic (now per : Nat)
    (c0 : Ctx) (f g : Ctx → Ctx) (cl : Option (Ctx → Ctx)) (n : Nat) :
    (on_expiry true Outcome.success
        (create now (some g) per (some c0) (some f) cl).1).2.countP isFirstEv
      = 1
    ∧ (on_expiry true Outcome.success
        (create now (some g) per (some c0) (some f) cl).1).2.countP isTickEv
      = 0
    ∧ (tick (create now (some g) per (some c0) (some f) cl).1).callfirst_
      = none
    ∧ (run_ticks (create now (some g) per (some c0) (some f) cl).1
        n).2.countP isFirstEv = min n 1
    ∧ (run_ticks (create now (some g) per (some c0) (some f) cl).1
        n).2.countP isTickEv = n - 1 := by
  have hs0 : (create now (some g) per (some c0) (some f) cl).1
      = ⟨now, per, true, some c0, some g, some f, cl⟩ := rfl
  have htick : tick (⟨now, per, true, some c0, some g, some f, cl⟩ :
      RepeatingTimer Ctx)
      = ⟨now + per, per, true, some (f c0), some g, none, cl⟩ := rfl
  have htr : (on_expiry true Outcome.success
      (⟨now, per, true, some c0, some g, some f, cl⟩ :
        RepeatingTimer Ctx)).2
      = [Event.lockAcquire, Event.lockRelease, Event.invokeFirst,
          Event.registerWakeup (now + per)] := rfl
  have hf : List.countP isFirstEv [Event.lockAcquire, Event.lockRelease,
      Event.invokeFirst, Event.registerWakeup (now + per)] = 1 := rfl
  have ht : List.countP isTickEv [Event.lockAcquire, Event.lockRelease,
      Event.invokeFirst, Event.registerWakeup (now + per)] = 0 := rfl
  refine ⟨rfl, rfl, rfl, ?_, ?_⟩
  · cases n with
    | zero => rfl
    | succ n =>
      obtain ⟨h1, _⟩ := run_ticks_counts_no_first per g cl n (now + per)
        (f c0)
      rw [hs0, run_ticks_succ_snd, htick, htr, List.countP_append, hf, h1]
      omega
  · cases n with
    | zero => rfl
    | succ n =>
      obtain ⟨_, h2⟩ := run_ticks_counts_no_first per g cl n (now + per)
        (f c0)
      rw [hs0, run_ticks_succ_snd, htick, htr, List.countP_append, ht, h2]
      omega

/-! ## C4 -/

/-- C4 (counterexample): if the handler of a successful (non-aborted)
expiry runs after `cancel()` already set `running_ = false`, the periodic
callback is invoked anyway — the handler consults `running_` only after the
callback, so "no callback is invoked once `running` is false" fails. -/
theorem stopped_timer_still_invokes_callback :
    ((on_expiry true Outcome.success
        (⟨10, 5, false, some 0, some (fun c => c + 1), none, none⟩ :
          RepeatingTimer Nat)).2
      = [Event.lockAcquire, Event.lockRelease, Event.invokeTick])
    ∧ Event.invokeTick ∈ (on_expiry true Outcome.success
        (⟨10, 5, false, some 0, some (fun c => c + 1), none, none⟩ :
          RepeatingTimer Nat)).2 := by
  have h : (on_expiry true Outcome.success
      (⟨10, 5, false, some 0, some (fun c => c + 1), none, none⟩ :
        RepeatingTimer Nat)).2
      = [Event.lockAcquire, Event.lockRelease, Event.invokeTick] := rfl
  exact ⟨h, by rw [h]; simp⟩

/-- C4 (amended): when the runtime reports the cancellation-as-error
outcome the handler does nothing at all — no callback, no rearm, state
untouched; when the timer has been cancelled (`running_ = false`) but the
wakeup still completes successfully, no new wakeup is registered and the
timer stays stopped, although the callback does still run one last time. -/
theorem no_rearm_after_cancel (alive : Bool) (s : RepeatingTimer Ctx)
    (e per : Nat) (ctx : Option Ctx) (cb cf cl : Option (Ctx → Ctx)) :
    on_expiry alive Outcome.aborted s = (s, [])
    ∧ ((on_expiry true Outcome.success
        (⟨e, per, false, ctx, cb, cf, cl⟩ :
          RepeatingTimer Ctx)).2.countP isRegisterEv) = 0
    ∧ (on_expiry true Outcome.success
        (⟨e, per, false, ctx, cb, cf, cl⟩ :
          RepeatingTimer Ctx)).1.running_ = false := by
  refine ⟨rfl, ?_, ?_⟩ <;> cases cf <;> cases cb <;> cases ctx <;> rfl

/-! ## C5 -/

/-- C5 (code bug, evaluated at the failing input): with a null context — as
`multi_thread_test.cpp` creates its timers — a successful tick skips the
lock but still evaluates `callback_(*context_)`, dereferencing the null
`shared_ptr` (invalid access) before rearming; likewise `cancel()` on a
timer with a stop-once callback and no context dereferences the null
context.  The claim that callbacks execute "without any invalid access to
the missing context" fails. -/
theorem null_context_tick_and_cancel_dereference_null :
    ((on_expiry true Outcome.success
        ((create 0 (some (fun c => c + 1)) 1 none none none :
          RepeatingTimer Nat × List Event).1)).2
      = [Event.derefNullContext, Event.registerWakeup 2])
    ∧ ((cancel (⟨0, 1, true, none, none, none,
        some (fun c => c + 1)⟩ : RepeatingTimer Nat)).2
      = [Event.cancelWakeup, Event.derefNullContext]) :=
  ⟨rfl, rfl⟩

/-! ## C6 -/

/-- `cancel()` on a timer whose stop-once callback is already gone only
flips `running_` and cancels the wakeup. -/
lemma cancel_no_last_fst (e per : Nat) (r : Bool) (ctx : Option Ctx)
    (cb cf : Option (Ctx → Ctx)) :
    (cancel (⟨e, per, r, ctx, cb, cf, none⟩ : RepeatingTimer Ctx)).1
      = ⟨e, per, false, ctx, cb, cf, none⟩ :=
  rfl

/-- Trace of `cancel()` when the stop-once callback is already gone. -/
lemma cancel_no_last_snd (e per : Nat) (r : Bool) (ctx : Option Ctx)
    (cb cf : Option (Ctx → Ctx)) :
    (cancel (⟨e, per, r, ctx, cb, cf, none⟩ : RepeatingTimer Ctx)).2
      = [Event.cancelWakeup] :=
  rfl

/-- Once `calllast_` is gone, no sequence of further `cancel()` calls ever
produces a stop-once invocation. -/
lemma run_cancels_counts_no_last (e per : Nat) (ctx : Option Ctx)
    (cb cf : Option (Ctx → Ctx)) :
    ∀ (n : Nat) (r : Bool),
    ((run_cancels (⟨e, per, r, ctx, cb, cf, none⟩ : RepeatingTimer Ctx)
      n).2.countP isLastEv) = 0 := by
  intro n
  induction n with
  | zero => intro r; rfl
  | succ n ih =>
    intro r
    rw [run_cancels_succ_snd, cancel_no_last_fst, cancel_no_last_snd,
      List.countP_append, ih false]
    rfl

/-- C6: `cancel()` (which the destructor simply calls) flips `running_` to
false, cancels the pending wakeup, and — with a context present — invokes
the stop-once callback exactly once, synchronously, then discards it; any
longer sequence of `cancel()` calls and the final destruction together
still invoke the stop-once callback exactly once over the whole lifetime. -/
theorem cancel_idempotent_stop_once (e per : Nat) (r : Bool) (c : Ctx)
    (f : Ctx → Ctx) (cb cf : Option (Ctx → Ctx)) (n : Nat) :
    (cancel (⟨e, per, r, some c, cb, cf, some f⟩ :
        RepeatingTimer Ctx)).1.running_ = false
    ∧ (cancel (⟨e, per, r, some c, cb, cf, some f⟩ :
        RepeatingTimer Ctx)).1.calllast_ = none
    ∧ (cancel (⟨e, per, r, some c, cb, cf, some f⟩ :
        RepeatingTimer Ctx)).2
      = [Event.cancelWakeup, Event.lockAcquire, Event.lockRelease,
          Event.invokeLast]
    ∧ ((run_cancels (⟨e, per, r, some c, cb, cf, some f⟩ :
        RepeatingTimer Ctx) (n + 1)).2.countP isLastEv) = 1 := by
  refine ⟨rfl, rfl, rfl, ?_⟩
  have hc1 : (cancel (⟨e, per, r, some c, cb, cf, some f⟩ :
      RepeatingTimer Ctx)).1
      = ⟨e, per, false, some (f c), cb, cf, none⟩ := rfl
  have hc2 : (cancel (⟨e, per, r, some c, cb, cf, some f⟩ :
      RepeatingTimer Ctx)).2
      = [Event.cancelWakeup, Event.lockAcquire, Event.lockRelease,
          Event.invokeLast] := rfl
  rw [run_cancels_succ_snd, hc1, hc2, List.countP_append,
    run_cancels_counts_no_last e per (some (f c)) cb cf n false]
  rfl

/-! ## C7 -/

/-- C7: on any runtime error other than cancellation the handler writes the
diagnostic (`logError`), returns without invoking any callback and without
registering a new wakeup, and in particular leaves `calllast_` in place
unfired — the stop-once callback does not run on this path (the rearm loop
simply halts, the state is returned unchanged, and the error is not turned
into an exception: the handler returns normally). -/
theorem runtime_error_logged_no_callback_no_rearm (alive : Bool) (m : Nat)
    (s : RepeatingTimer Ctx) :
    on_expiry alive (Outcome.error m) s = (s, [Event.logError m])
    ∧ (on_expiry alive (Outcome.error m) s).2.countP isInvokeEv = 0
    ∧ (on_expiry alive (Outcome.error m) s).2.countP isRegisterEv = 0
    ∧ (on_expiry alive (Outcome.error m) s).1.calllast_ = s.calllast_
    ∧ (on_expiry alive (Outcome.error m) s).2.countP isLastEv = 0 :=
  ⟨rfl, rfl, rfl, rfl, rfl⟩

/-! ## C8 -/

/-- C8: on a running timer with no pending start-once callback,
`reschedule(newPeriod, saveNew)` cancels the pending wakeup, resets the
anchor deadline to now, and arms the next tick for `now + newPeriod`; the
stored period becomes `newPeriod` exactly when `saveNew`, so the tick after
next is armed one stored period later — `newPeriod` later when persisted,
the previous period later when not; the no-argument `reschedule()` re-arms
for `now + period_`. -/
theorem reschedule_resets_anchor_and_applies_period (e per newP now : Nat)
    (save : Bool) (ctx : Option Ctx) (cb cl : Option (Ctx → Ctx)) :
    (reschedule (⟨e, per, true, ctx, cb, none, cl⟩ : RepeatingTimer Ctx)
        newP save now).1.expiry = now + newP
    ∧ (reschedule (⟨e, per, true, ctx, cb, none, cl⟩ : RepeatingTimer Ctx)
        newP save now).1.period_ = (if save then newP else per)
    ∧ (reschedule (⟨e, per, true, ctx, cb, none, cl⟩ : RepeatingTimer Ctx)
        newP save now).2
      = [Event.lockAcquire, Event.cancelWakeup,
          Event.registerWakeup (now + newP), Event.lockRelease]
    ∧ (tick (reschedule (⟨e, per, true, ctx, cb, none, cl⟩ :
        RepeatingTimer Ctx) newP save now).1).expiry
      = now + newP + (if save then newP else per)
    ∧ (reschedule_same (⟨e, per, true, ctx, cb, none, cl⟩ :
        RepeatingTimer Ctx) now).1.expiry = now + per := by
  cases save
  · refine ⟨rfl, rfl, rfl, ?_, rfl⟩
    have hr : (reschedule (⟨e, per, true, ctx, cb, none, cl⟩ :
        RepeatingTimer Ctx) newP false now).1
        = ⟨now + newP, per, true, ctx, cb, none, cl⟩ := rfl
    rw [hr]
    exact tick_expiry_of_no_first (now + newP) per ctx cb cl
  · refine ⟨rfl, rfl, rfl, ?_, rfl⟩
    have hr : (reschedule (⟨e, per, true, ctx, cb, none, cl⟩ :
        RepeatingTimer Ctx) newP true now).1
        = ⟨now + newP, newP, true, ctx, cb, none, cl⟩ := rfl
    rw [hr]
    exact tick_expiry_of_no_first (now + newP) newP ctx cb cl

/-! ## C9 -/

/-- C9 (code bug, evaluated on concrete ticks): the `lock_guard` in
`if (self->context_) std::lock_guard<std::mutex> lock(self->mtx_);` is the
whole body of the `if` statement, so it is destroyed at the end of that
statement — before the callback runs.  The traces of a periodic tick, of a
start-once tick and of `cancel()` on a timer with a context all show the
mutex released before the callback invocation, so no callback invocation is
protected by the mutex, contradicting "the guarding mutex is held for the
entire duration of the callback invocation". -/
theorem callbacks_run_outside_the_mutex :
    ((on_expiry true Outcome.success
        (⟨10, 5, true, some 0, some (fun c => c + 1), none, none⟩ :
          RepeatingTimer Nat)).2
      = [Event.lockAcquire, Event.lockRelease, Event.invokeTick,
          Event.registerWakeup 15])
    ∧ invokesGuarded (on_expiry true Outcome.success
        (⟨10, 5, true, some 0, some (fun c => c + 1), none, none⟩ :
          RepeatingTimer Nat)).2 = false
    ∧ ((on_expiry true Outcome.success
        (⟨10, 5, true, some 0, none, some (fun c => c + 1), none⟩ :
          RepeatingTimer Nat)).2
      = [Event.lockAcquire, Event.lockRelease, Event.invokeFirst,
          Event.registerWakeup 15])
    ∧ invokesGuarded (on_expiry true Outcome.success
        (⟨10, 5, true, some 0, none, some (fun c => c + 1), none⟩ :
          RepeatingTimer Nat)).2 = false
    ∧ ((cancel (⟨10, 5, true, some 0, none, none, some (fun c => c + 1)⟩ :
          RepeatingTimer Nat)).2
      = [Event.cancelWakeup, Event.lockAcquire, Event.lockRelease,
          Event.invokeLast])
    ∧ invokesGuarded (cancel
        (⟨10, 5, true, some 0, none, none, some (fun c => c + 1)⟩ :
          RepeatingTimer Nat)).2 = false :=
  ⟨rfl, rfl, rfl, rfl, rfl, rfl⟩

/-! ## C10 -/

/-- C10: `reschedule(newPeriod, saveNew)` called while the start-once
callback is still pending arms the wakeup for the just-reset anchor `now`
itself — `newPeriod` is ignored for the immediately next tick — while the
stored period is still updated to `newPeriod` exactly when `saveNew`. -/
theorem reschedule_with_pending_start_arms_for_now (e per newP now : Nat)
    (save : Bool) (ctx : Option Ctx) (f : Ctx → Ctx)
    (cb cl : Option (Ctx → Ctx)) :
    (reschedule (⟨e, per, true, ctx, cb, some f, cl⟩ : RepeatingTimer Ctx)
        newP save now).1.expiry = now
    ∧ (reschedule (⟨e, per, true, ctx, cb, some f, cl⟩ :
        RepeatingTimer Ctx) newP save now).1.period_
      = (if save then newP else per)
    ∧ (reschedule (⟨e, per, true, ctx, cb, some f, cl⟩ :
        RepeatingTimer Ctx) newP save now).2
      = [Event.lockAcquire, Event.cancelWakeup, Event.registerWakeup now,
          Event.lockRelease] := by
  cases save <;> exact ⟨rfl, rfl, rfl⟩

end RepeatingTimer
